import Mathlib

/-!
Verification of the client-side data reconciliation pipeline of the
stock-forecasting dashboard (`frontend/src/Dashboards/StockDashboard.jsx`).

The JavaScript fragment under study is shallowly embedded: JavaScript
runtime values are the inductive type `JsVal`; JavaScript numbers are the
idealized type `JNum` (exact rationals extended with `nan` and signed
infinity, abstracting IEEE doubles); expressions that can throw a
`TypeError` (property access on `null`/`undefined`, calling `.map` on a
non-array) return in the `Except JsErr` monad.  Purely value-level
built-ins (`??`, `||`, `Number(...)`, `.toFixed(2)` composed with
`parseFloat`, object spread) are modelled as total functions.
-/

/-- Idealized JavaScript number: an exact rational, `NaN`, or a signed
infinity (`inf true` is `+Infinity`).  IEEE rounding of finite doubles is
abstracted away; special-value propagation is kept. -/
inductive JNum where
  | nan : JNum
  | inf : Bool → JNum
  | fin : ℚ → JNum
  deriving DecidableEq

/-- Rounding to 2 decimal places as performed by `Number.toFixed(2)`:
nearest multiple of 1/100, ties on the magnitude going to the larger
digit string (away from zero). -/
def round2q (q : ℚ) : ℚ :=
  if q < 0 then -(((⌊(-q) * 100 + 1/2⌋ : ℤ) : ℚ) / 100)
  else ((⌊q * 100 + 1/2⌋ : ℤ) : ℚ) / 100

/-- `Number.parseFloat(x.toFixed(2))`: finite numbers are rounded to 2
decimals; `NaN` and the infinities print and re-parse to themselves. -/
def jnRound2 : JNum → JNum
  | .nan => .nan
  | .inf b => .inf b
  | .fin q => .fin (round2q q)

/-- JavaScript multiplication on `JNum`. -/
def jnMul : JNum → JNum → JNum
  | .nan, _ => .nan
  | _, .nan => .nan
  | .inf a, .inf b => .inf (a = b)
  | .inf a, .fin q => if q = 0 then .nan else .inf (a = decide (0 < q))
  | .fin q, .inf b => if q = 0 then .nan else .inf (b = decide (0 < q))
  | .fin a, .fin b => .fin (a * b)

/-- JavaScript subtraction on `JNum`. -/
def jnSub : JNum → JNum → JNum
  | .nan, _ => .nan
  | _, .nan => .nan
  | .inf a, .inf b => if a = b then .nan else .inf a
  | .inf a, .fin _ => .inf a
  | .fin _, .inf b => .inf (!b)
  | .fin a, .fin b => .fin (a - b)

/-- JavaScript division on `JNum`.  Division of a nonzero finite number by
zero yields a signed infinity; `0 / 0` yields `NaN` (the rational zero is
unsigned, so the sign of the infinity follows the numerator). -/
def jnDiv : JNum → JNum → JNum
  | .nan, _ => .nan
  | _, .nan => .nan
  | .inf _, .inf _ => .nan
  | .inf a, .fin q => .inf (a = decide (0 ≤ q))
  | .fin _, .inf _ => .fin 0
  | .fin a, .fin b =>
    if b = 0 then (if a = 0 then .nan else .inf (decide (0 < a)))
    else .fin (a / b)

/-- Value of a block of decimal digit characters. -/
def digitsToNat (l : List Char) : ℕ :=
  l.foldl (fun a c => a * 10 + (c.toNat - Char.toNat '0')) 0

/-- Core of string-to-number coercion, after trimming and sign removal:
accepts plain decimal forms `d+`, `d+.d*`, `.d+`, `d*.d+` and maps every
other form to `NaN`.  (Exponent, hexadecimal and `Infinity` forms, which
the dashboard never produces, also map to `NaN` in this model.) -/
def strToNumCore (l : List Char) : JNum :=
  match l.span Char.isDigit with
  | (intPart, []) =>
    if intPart.isEmpty then .nan else .fin (digitsToNat intPart)
  | (intPart, c :: fracPart) =>
    if c = '.' ∧ fracPart.all Char.isDigit ∧ (intPart ≠ [] ∨ fracPart ≠ []) then
      .fin ((digitsToNat intPart : ℚ) +
        (digitsToNat fracPart : ℚ) / ((10 : ℚ) ^ fracPart.length))
    else .nan

/-- JavaScript `ToNumber` on strings (model): whitespace-only is 0, signed
plain decimal literals take their value, everything else is `NaN`. -/
def strToNumber (s : String) : JNum :=
  match (s.trim).toList with
  | [] => .fin 0
  | c :: rest =>
    if c = '-' then
      match strToNumCore rest with
      | .fin q => .fin (-q)
      | x => x
    else if c = '+' then strToNumCore rest
    else strToNumCore (c :: rest)

/-- The `TypeError`s the embedded fragment can raise: reading a property
of `null`/`undefined`, or calling `.map` on a value that is not an
array. -/
inductive JsErr where
  | typeError : JsErr
  deriving DecidableEq

/-- JavaScript runtime values as they occur in the dashboard after
`res.json()`: the JSON universe plus `undefined` (which property reads on
objects lacking the key produce). -/
inductive JsVal where
  | null : JsVal
  | jsUndefined : JsVal
  | bool : Bool → JsVal
  | num : JNum → JsVal
  | str : String → JsVal
  | arr : List JsVal → JsVal
  | obj : List (String × JsVal) → JsVal

/-- JavaScript truthiness. -/
def jsTruthy : JsVal → Bool
  | .null => false
  | .jsUndefined => false
  | .bool b => b
  | .num (.fin q) => q ≠ 0
  | .num .nan => false
  | .num (.inf _) => true
  | .str s => s ≠ ""
  | .arr _ => true
  | .obj _ => true

/-- JavaScript `ToNumber`.  Arrays coerce through their joined string
form; the dashboard never exercises that path, so only the empty array
(whose string form is `""`, hence 0) is given its exact value and other
arrays are modelled as `NaN`, as are plain objects. -/
def jsToNumber : JsVal → JNum
  | .null => .fin 0
  | .jsUndefined => .nan
  | .bool b => .fin (if b then 1 else 0)
  | .num x => x
  | .str s => strToNumber s
  | .arr [] => .fin 0
  | .arr (_ :: _) => .nan
  | .obj _ => .nan

/-- Nullish coalescing `a ?? b`. -/
def jsNullish (a b : JsVal) : JsVal :=
  match a with
  | .null => b
  | .jsUndefined => b
  | v => v

/-- Logical or `a || b`. -/
def jsOr (a b : JsVal) : JsVal :=
  if jsTruthy a then a else b

/-- First-match lookup in an object's field list (JSON-parsed objects
have unique keys, so first match is the match). -/
def objGet : List (String × JsVal) → String → Option JsVal
  | [], _ => none
  | (k₂, v) :: fs, k => if k₂ = k then some v else objGet fs k

/-- Total property read `v.k` for receivers on which it cannot throw:
objects yield the field or `undefined`; primitives other than
`null`/`undefined` yield `undefined` (none of the accessed keys exists on
boxed primitives or arrays). -/
def jsGetPropD (v : JsVal) (k : String) : JsVal :=
  match v with
  | .obj fs => (objGet fs k).getD .jsUndefined
  | _ => .jsUndefined

/-- Property read `v.k` as executed: throws a `TypeError` on `null` and
`undefined` receivers. -/
def jsGetProp (v : JsVal) (k : String) : Except JsErr JsVal :=
  match v with
  | .null => .error .typeError
  | .jsUndefined => .error .typeError
  | v => .ok (jsGetPropD v k)

/-- Entries contributed by object spread `{...v}`: an object's own
entries; spreading primitives and arrays contributes none of the keys the
dashboard reads (string spread, which contributes index keys, is never
reached with the dashboard's field names). -/
def objSpread : JsVal → List (String × JsVal)
  | .obj fs => fs
  | _ => []

/-- Effect of a literal entry `k: v` placed after a spread: overwrite in
place if the key is present, else append (JavaScript property-definition
order). -/
def objUpd : List (String × JsVal) → String → JsVal → List (String × JsVal)
  | [], k, v => [(k, v)]
  | (k₂, v₂) :: fs, k, v =>
    if k₂ = k then (k, v) :: fs else (k₂, v₂) :: objUpd fs k v

/-- Does a (merged-series) point carry field `k` at all? -/
def hasKey (v : JsVal) (k : String) : Bool :=
  match v with
  | .obj fs => (objGet fs k).isSome
  | _ => false

/-! ## The dashboard's transformation layer (from `StockDashboard.jsx`) -/

/-- `const USD_TO_INR = 83`. -/
def USD_TO_INR : ℚ := 83

/-- The numeric literal `0` as a JavaScript value. -/
def jsZero : JsVal := .num (.fin 0)

/-- `convertToInr = (value) =>
      Number.parseFloat(((value ?? 0) * USD_TO_INR).toFixed(2))`. -/
def convertToInr (value : JsVal) : JNum :=
  jnRound2 (jnMul (jsToNumber (jsNullish value jsZero)) (.fin USD_TO_INR))

/-- `Array.prototype.map` with a body that can throw: the first throw
aborts the whole map. -/
def mapE (f : JsVal → Except JsErr JsVal) : List JsVal → Except JsErr (List JsVal)
  | [] => .ok []
  | x :: xs => do
    let y ← f x
    let ys ← mapE f xs
    .ok (y :: ys)

/-- Body of the historical conversion map:
`d => ({ ...d, price: convertToInr(d.price) })`.
Reading `d.price` throws when `d` is `null`/`undefined`. -/
def convertHistRecord (d : JsVal) : Except JsErr JsVal := do
  let p ← jsGetProp d "price"
  .ok (.obj (objUpd (objSpread d) "price" (.num (convertToInr p))))

/-- Total value of `convertHistRecord` on the receivers where it does not
throw. -/
def convertHistTotal (d : JsVal) : JsVal :=
  .obj (objUpd (objSpread d) "price" (.num (convertToInr (jsGetPropD d "price"))))

/-- The recurring pattern `(payload || []).map(f)`: a falsy payload is
replaced by `[]`; `.map` on a truthy non-array throws a `TypeError`. -/
def jsArrayMapE (f : JsVal → Except JsErr JsVal) (payload : JsVal) :
    Except JsErr (List JsVal) :=
  match jsOr payload (.arr []) with
  | .arr xs => mapE f xs
  | _ => .error .typeError

/-- `const convertedHistorical = (historicalData || []).map(d => ({ ...d,
price: convertToInr(d.price) }))`. -/
def convertedHistoricalE (historicalData : JsVal) : Except JsErr (List JsVal) :=
  jsArrayMapE convertHistRecord historicalData

/-- Body of the forecast projection:
`d => ({ date: d.ds, prediction: convertToInr(d.yhat) })`. -/
def forecastRecord (d : JsVal) : Except JsErr JsVal := do
  let ds ← jsGetProp d "ds"
  let yhat ← jsGetProp d "yhat"
  .ok (.obj [("date", ds), ("prediction", .num (convertToInr yhat))])

/-- Total value of `forecastRecord` on the receivers where it does not
throw. -/
def forecastTotal (d : JsVal) : JsVal :=
  .obj [("date", jsGetPropD d "ds"),
        ("prediction", .num (convertToInr (jsGetPropD d "yhat")))]

/-- Body of the historical projection inside the merge:
`d => ({ date: d.date, price: d.price })`. -/
def mergedHistPoint (d : JsVal) : Except JsErr JsVal := do
  let dt ← jsGetProp d "date"
  let p ← jsGetProp d "price"
  .ok (.obj [("date", dt), ("price", p)])

/-- Total value of `mergedHistPoint` on the receivers where it does not
throw. -/
def mergedHistTotal (d : JsVal) : JsVal :=
  .obj [("date", jsGetPropD d "date"), ("price", jsGetPropD d "price")]

/-- The forecast half of the merged series:
`(predictionData || []).map(d => ({date: d.ds,
prediction: convertToInr(d.yhat)}))`. -/
def forecastSeriesE (predictionData : JsVal) : Except JsErr (List JsVal) :=
  jsArrayMapE forecastRecord predictionData

/-- The merged chart series:
`[...convertedHistorical.map(d => ({date: d.date, price: d.price})),
   ...(predictionData || []).map(d => ({date: d.ds,
   prediction: convertToInr(d.yhat)}))]`.
The first argument is the already-converted historical list in scope; the
second is the raw forecast payload. -/
def buildMergedSeries (convertedHistorical : List JsVal)
    (predictionData : JsVal) : Except JsErr (List JsVal) := do
  let hs ← mapE mergedHistPoint convertedHistorical
  let fs ← forecastSeriesE predictionData
  .ok (hs ++ fs)

/-- `metricsData.regression || {}`. -/
def regressionOf (metricsData : JsVal) : JsVal :=
  jsOr (jsGetPropD metricsData "regression") (.obj [])

/-- `metricsData.classification || {}`. -/
def classificationOf (metricsData : JsVal) : JsVal :=
  jsOr (jsGetPropD metricsData "classification") (.obj [])

/-- The default confusion matrix `{ tn: 0, fp: 0, fn: 0, tp: 0 }`. -/
def emptyConfusionMatrix : JsVal :=
  .obj [("tn", jsZero), ("fp", jsZero), ("fn", jsZero), ("tp", jsZero)]

/-- The regression sub-object of `transformMetrics`'s result:
`{ ...regression, mae: convertToInr(regression.mae ?? 0),
   rmse: convertToInr(regression.rmse ?? 0),
   mape: Number(regression.mape ?? 0), r2: Number(regression.r2 ?? 0) }`. -/
def transformedRegression (regression : JsVal) : JsVal :=
  .obj (objUpd (objUpd (objUpd (objUpd (objSpread regression)
    "mae" (.num (convertToInr (jsNullish (jsGetPropD regression "mae") jsZero))))
    "rmse" (.num (convertToInr (jsNullish (jsGetPropD regression "rmse") jsZero))))
    "mape" (.num (jsToNumber (jsNullish (jsGetPropD regression "mape") jsZero))))
    "r2" (.num (jsToNumber (jsNullish (jsGetPropD regression "r2") jsZero))))

/-- The classification sub-object of `transformMetrics`'s result:
`{ ...classification, accuracy: Number(classification.accuracy ?? 0), ...,
   confusion_matrix: classification.confusion_matrix || {tn:0,fp:0,fn:0,tp:0} }`. -/
def transformedClassification (classification : JsVal) : JsVal :=
  .obj (objUpd (objUpd (objUpd (objUpd (objUpd (objSpread classification)
    "accuracy" (.num (jsToNumber (jsNullish (jsGetPropD classification "accuracy") jsZero))))
    "precision" (.num (jsToNumber (jsNullish (jsGetPropD classification "precision") jsZero))))
    "recall" (.num (jsToNumber (jsNullish (jsGetPropD classification "recall") jsZero))))
    "f1" (.num (jsToNumber (jsNullish (jsGetPropD classification "f1") jsZero))))
    "confusion_matrix" (jsOr (jsGetPropD classification "confusion_matrix") emptyConfusionMatrix))

/-- `transformMetrics`, as a total function (its property reads are shown
never to throw by `transformMetricsE_eq` below):
```
const transformMetrics = (metricsData) => {
  if (!metricsData || metricsData.error) return null;
  const regression = metricsData.regression || {};
  const classification = metricsData.classification || {};
  return { ...metricsData, regression: {...}, classification: {...} };
};
``` -/
def transformMetrics (metricsData : JsVal) : JsVal :=
  if jsTruthy metricsData = false then .null
  else if jsTruthy (jsGetPropD metricsData "error") then .null
  else
    .obj (objUpd (objUpd (objSpread metricsData)
      "regression" (transformedRegression (regressionOf metricsData)))
      "classification" (transformedClassification (classificationOf metricsData)))

/-- `transformMetrics` with every property read routed through the
throwing accessor, exactly as executed. -/
def transformMetricsE (metricsData : JsVal) : Except JsErr JsVal :=
  if jsTruthy metricsData = false then .ok .null
  else do
    let err ← jsGetProp metricsData "error"
    if jsTruthy err then .ok .null
    else do
      let regRaw ← jsGetProp metricsData "regression"
      let regression := jsOr regRaw (.obj [])
      let clsRaw ← jsGetProp metricsData "classification"
      let classification := jsOr clsRaw (.obj [])
      let mae ← jsGetProp regression "mae"
      let rmse ← jsGetProp regression "rmse"
      let mape ← jsGetProp regression "mape"
      let r2 ← jsGetProp regression "r2"
      let acc ← jsGetProp classification "accuracy"
      let prec ← jsGetProp classification "precision"
      let rec ← jsGetProp classification "recall"
      let f1 ← jsGetProp classification "f1"
      let cm ← jsGetProp classification "confusion_matrix"
      .ok (.obj (objUpd (objUpd (objSpread metricsData)
        "regression" (.obj (objUpd (objUpd (objUpd (objUpd (objSpread regression)
          "mae" (.num (convertToInr (jsNullish mae jsZero))))
          "rmse" (.num (convertToInr (jsNullish rmse jsZero))))
          "mape" (.num (jsToNumber (jsNullish mape jsZero))))
          "r2" (.num (jsToNumber (jsNullish r2 jsZero))))))
        "classification" (.obj (objUpd (objUpd (objUpd (objUpd (objUpd
          (objSpread classification)
          "accuracy" (.num (jsToNumber (jsNullish acc jsZero))))
          "precision" (.num (jsToNumber (jsNullish prec jsZero))))
          "recall" (.num (jsToNumber (jsNullish rec jsZero))))
          "f1" (.num (jsToNumber (jsNullish f1 jsZero))))
          "confusion_matrix" (jsOr cm emptyConfusionMatrix)))))

/-- `getPriceChange`:
```
if (stockData.length < 2) return { change: 0, percentage: 0 };
const current = stockData[stockData.length - 1].price;
const previous = stockData[stockData.length - 2].price;
const change = current - previous;
return { change, percentage: (change / previous) * 100 };
```
Out-of-range indexing yields `undefined` (the `getD .jsUndefined`), on which the
`.price` read would throw, as in JavaScript. -/
def getPriceChange (stockData : List JsVal) : Except JsErr (JNum × JNum) :=
  if stockData.length < 2 then .ok (.fin 0, .fin 0)
  else do
    let current ← jsGetProp ((stockData[stockData.length - 1]?).getD .jsUndefined) "price"
    let previous ← jsGetProp ((stockData[stockData.length - 2]?).getD .jsUndefined) "price"
    let change := jnSub (jsToNumber current) (jsToNumber previous)
    .ok (change, jnMul (jnDiv change (jsToNumber previous)) (.fin 100))

/-! ## The selection event handler's join and error policy -/

/-- Outcome of one `fetch`: the promise rejects, or a response arrives
with an HTTP status (`okStatus`) and a body that either parses as JSON
(`some v`) or does not (`none`, making `res.json()` reject).  The handler
code never consults the status — faithfully to
`fetch(url).then(res => res.json())`. -/
inductive FetchResult where
  | reject : FetchResult
  | respond : Bool → Option JsVal → FetchResult

/-- Result of `fetch(url).then(res => res.json())`: `none` when the chain
rejects.  The HTTP status is ignored, as in the source. -/
def settleJson : FetchResult → Option JsVal
  | .reject => none
  | .respond _ body => body

/-- The view state committed by `handleStockSelect` (the fields the
claims speak about). -/
structure ViewState where
  stockData : List JsVal
  mergedData : List JsVal
  metrics : JsVal

/-- The state committed by the `.catch` branch:
`setStockData([]); setMergedData([]); setMetrics(null)`. -/
def resetState : ViewState := ⟨[], [], .null⟩

/-- Body of the `.then` of the `Promise.all`: a throw anywhere inside it
propagates to the `.catch`. -/
def thenBody (historicalData predictionData metricsData : JsVal) :
    Except JsErr ViewState := do
  let convertedHistorical ← convertedHistoricalE historicalData
  let merged ← buildMergedSeries convertedHistorical predictionData
  let m ← transformMetricsE metricsData
  .ok ⟨convertedHistorical, merged, m⟩

/-- The final committed view state of one selection, as a function of the
three fetch outcomes: any rejection (of the request or of `res.json()`),
and any throw inside the `.then` body, lands in the `.catch`, which
resets the state. -/
def handleStockSelect (h p m : FetchResult) : ViewState :=
  match settleJson h, settleJson p, settleJson m with
  | some hj, some pj, some mj =>
    match thenBody hj pj mj with
    | .ok st => st
    | .error _ => resetState
  | _, _, _ => resetState

/-! ## Concrete fixtures (spec §8 scenarios), used by witnesses -/

/-- A converted historical record with price 100 (scenario 7). -/
def sampleHist1 : JsVal :=
  .obj [("date", .str "d1"), ("price", .num (.fin 100)), ("volume", .num (.fin 10))]

/-- A converted historical record with price 110 (scenario 7). -/
def sampleHist2 : JsVal :=
  .obj [("date", .str "d2"), ("price", .num (.fin 110)), ("volume", .num (.fin 12))]

/-- A raw forecast record `{ds: "d3", yhat: 2}`. -/
def sampleForecast1 : JsVal :=
  .obj [("ds", .str "d3"), ("yhat", .num (.fin 2))]

/-- A raw historical record with price 1.2045 (scenario 8). -/
def sampleRaw1 : JsVal :=
  .obj [("date", .str "2024-01-02"), ("price", .num (.fin (12045/10000))),
        ("volume", .num (.fin 158))]

/-- The raw metrics payload of scenario 9. -/
def sampleMetrics : JsVal :=
  .obj [("regression", .obj [("mae", .num (.fin 1)), ("rmse", .num (.fin 2)),
          ("mape", .num (.fin 3)), ("r2", .num (.fin (9/10)))]),
        ("classification", .obj [("accuracy", .num (.fin (8/10))),
          ("precision", .num (.fin (7/10))), ("recall", .num (.fin (6/10))),
          ("f1", .num (.fin (65/100))),
          ("confusion_matrix", .obj [("tn", .num (.fin 1)), ("fp", .num (.fin 2)),
            ("fn", .num (.fin 3)), ("tp", .num (.fin 4))])])]

/-! ## Helper lemmas -/

example : jsTruthy (.num (.fin 5)) = true := by rfl
example : round2q (12045/10000 * 83) = 9997/100 := by norm_num [round2q]
example : objUpd [("a", .null), ("b", .jsUndefined)] "a" (.bool true) =
    [("a", .bool true), ("b", .jsUndefined)] := by rfl

theorem getElem?_some_lt {l : List JsVal} {i : ℕ} {x : JsVal}
    (h : l[i]? = some x) : i < l.length := by
  by_contra hn
  push_neg at hn
  rw [List.getElem?_eq_none hn] at h
  cases h

theorem jsTruthy_ne_null {v : JsVal} (h : jsTruthy v = true) : v ≠ .null := by
  intro hv; subst hv; simp [jsTruthy] at h

theorem jsTruthy_ne_jsUndefined {v : JsVal} (h : jsTruthy v = true) : v ≠ .jsUndefined := by
  intro hv; subst hv; simp [jsTruthy] at h

theorem jsGetProp_of_ne {v : JsVal} (k : String) (h₁ : v ≠ .null)
    (h₂ : v ≠ .jsUndefined) : jsGetProp v k = .ok (jsGetPropD v k) := by
  cases v <;> simp_all [jsGetProp]

@[simp] theorem jsGetProp_jsOr_obj (v : JsVal) (fs : List (String × JsVal))
    (k : String) :
    jsGetProp (jsOr v (.obj fs)) k = .ok (jsGetPropD (jsOr v (.obj fs)) k) := by
  unfold jsOr
  by_cases h : jsTruthy v = true
  · simp only [h, if_true]
    exact jsGetProp_of_ne k (jsTruthy_ne_null h) (jsTruthy_ne_jsUndefined h)
  · simp [h, jsGetProp]

theorem mapE_ok_of_total {f : JsVal → Except JsErr JsVal} {g : JsVal → JsVal}
    {xs : List JsVal} (h : ∀ x ∈ xs, f x = .ok (g x)) :
    mapE f xs = .ok (xs.map g) := by
  induction xs with
  | nil => rfl
  | cons x xs ih =>
    simp only [mapE, h x (by simp), List.map_cons, bind, Except.bind]
    rw [ih (fun y hy => h y (by simp [hy]))]

theorem mapE_ok_length {f : JsVal → Except JsErr JsVal} :
    ∀ {xs ys : List JsVal}, mapE f xs = .ok ys → ys.length = xs.length := by
  intro xs
  induction xs with
  | nil => intro ys h; simp only [mapE] at h; cases h; rfl
  | cons x xs ih =>
    intro ys h
    simp only [mapE, bind, Except.bind] at h
    cases hx : f x with
    | error e => rw [hx] at h; cases h
    | ok y =>
      rw [hx] at h
      cases hxs : mapE f xs with
      | error e => rw [hxs] at h; cases h
      | ok ys₂ => rw [hxs] at h; cases h; simp [ih hxs]

theorem mapE_ok_get {f : JsVal → Except JsErr JsVal} :
    ∀ {xs ys : List JsVal}, mapE f xs = .ok ys →
      ∀ (i : ℕ) (x : JsVal), xs[i]? = some x → ∃ y, f x = .ok y ∧ ys[i]? = some y := by
  intro xs
  induction xs with
  | nil => intro ys _ i x hx; simp at hx
  | cons z xs ih =>
    intro ys h i x hx
    simp only [mapE, bind, Except.bind] at h
    cases hz : f z with
    | error e => rw [hz] at h; cases h
    | ok y =>
      rw [hz] at h
      cases hxs : mapE f xs with
      | error e => rw [hxs] at h; cases h
      | ok ys₂ =>
        rw [hxs] at h; cases h
        cases i with
        | zero => simp at hx; subst hx; exact ⟨y, hz, by simp⟩
        | succ j =>
          simp only [List.getElem?_cons_succ] at hx ⊢
          exact ih hxs j x hx

theorem mapE_ok_mem {f : JsVal → Except JsErr JsVal} :
    ∀ {xs ys : List JsVal}, mapE f xs = .ok ys →
      ∀ y ∈ ys, ∃ x ∈ xs, f x = .ok y := by
  intro xs
  induction xs with
  | nil => intro ys h y hy; simp only [mapE] at h; cases h; simp at hy
  | cons z xs ih =>
    intro ys h y hy
    simp only [mapE, bind, Except.bind] at h
    cases hz : f z with
    | error e => rw [hz] at h; cases h
    | ok w =>
      rw [hz] at h
      cases hxs : mapE f xs with
      | error e => rw [hxs] at h; cases h
      | ok ys₂ =>
        rw [hxs] at h; cases h
        rcases List.mem_cons.mp hy with hy | hy
        · exact ⟨z, by simp, by rw [hz, hy]⟩
        · obtain ⟨x, hx, hfx⟩ := ih hxs y hy
          exact ⟨x, by simp [hx], hfx⟩

theorem mapE_ok_of_elems {f : JsVal → Except JsErr JsVal} :
    ∀ {xs : List JsVal}, (∀ x ∈ xs, ∃ y, f x = .ok y) →
      ∃ ys, mapE f xs = .ok ys := by
  intro xs
  induction xs with
  | nil => intro _; exact ⟨[], rfl⟩
  | cons z xs ih =>
    intro h
    obtain ⟨y, hy⟩ := h z (by simp)
    obtain ⟨ys, hys⟩ := ih (fun x hx => h x (by simp [hx]))
    exact ⟨y :: ys, by simp [mapE, bind, Except.bind, hy, hys]⟩

theorem mapE_error_of_elem {f : JsVal → Except JsErr JsVal} :
    ∀ {xs : List JsVal} {x : JsVal} {e : JsErr}, x ∈ xs → f x = .error e →
      ∀ ys, mapE f xs ≠ .ok ys := by
  intro xs
  induction xs with
  | nil => intro x e hx; simp at hx
  | cons z xs ih =>
    intro x e hx hfx ys h
    simp only [mapE, bind, Except.bind] at h
    rcases List.mem_cons.mp hx with hx | hx
    · subst hx; rw [hfx] at h; cases h
    · cases hz : f z with
      | error e₂ => rw [hz] at h; cases h
      | ok w =>
        rw [hz] at h
        cases hxs : mapE f xs with
        | error e₂ => rw [hxs] at h; cases h
        | ok ys₂ => exact ih hx hfx ys₂ hxs

theorem convertHistRecord_eq {d : JsVal} (h₁ : d ≠ .null) (h₂ : d ≠ .jsUndefined) :
    convertHistRecord d = .ok (convertHistTotal d) := by
  simp [convertHistRecord, convertHistTotal, jsGetProp_of_ne _ h₁ h₂,
    bind, Except.bind]

theorem forecastRecord_eq {d : JsVal} (h₁ : d ≠ .null) (h₂ : d ≠ .jsUndefined) :
    forecastRecord d = .ok (forecastTotal d) := by
  simp [forecastRecord, forecastTotal, jsGetProp_of_ne _ h₁ h₂,
    bind, Except.bind]

theorem mergedHistPoint_eq {d : JsVal} (h₁ : d ≠ .null) (h₂ : d ≠ .jsUndefined) :
    mergedHistPoint d = .ok (mergedHistTotal d) := by
  simp [mergedHistPoint, mergedHistTotal, jsGetProp_of_ne _ h₁ h₂,
    bind, Except.bind]

theorem objGet_objUpd_self (fs : List (String × JsVal)) (k : String)
    (v : JsVal) : objGet (objUpd fs k v) k = some v := by
  induction fs with
  | nil => simp [objUpd, objGet]
  | cons p fs ih =>
    by_cases h : p.1 = k
    · simp [objUpd, h, objGet]
    · simp [objUpd, h, objGet, ih]

theorem objGet_objUpd_of_ne (fs : List (String × JsVal)) {k k₂ : String}
    (v : JsVal) (h : k₂ ≠ k) : objGet (objUpd fs k v) k₂ = objGet fs k₂ := by
  induction fs with
  | nil => simp [objUpd, objGet, Ne.symm h]
  | cons p fs ih =>
    by_cases hp : p.1 = k
    · subst hp; simp only [objUpd, if_true]
      simp [objGet, fun hh : p.1 = k₂ => h (hh ▸ rfl), Ne.symm h]
    · simp only [objUpd, hp, if_false]
      by_cases hk : p.1 = k₂ <;> simp [objGet, hk, ih]

theorem transformMetricsE_eq (m : JsVal) :
    transformMetricsE m = .ok (transformMetrics m) := by
  by_cases h : jsTruthy m = true
  · have h₁ := jsTruthy_ne_null h
    have h₂ := jsTruthy_ne_jsUndefined h
    simp only [transformMetricsE, transformMetrics, h,
      jsGetProp_of_ne _ h₁ h₂, jsGetProp_jsOr_obj, bind, Except.bind,
      regressionOf, classificationOf, transformedRegression,
      transformedClassification]
    by_cases hc : jsTruthy (jsGetPropD m "error") = true <;> simp [hc]
  · simp only [Bool.not_eq_true] at h
    simp [transformMetricsE, transformMetrics, h]

theorem jsNullish_jsNullish (a : JsVal) :
    jsNullish (jsNullish a jsZero) jsZero = jsNullish a jsZero := by
  cases a <;> rfl

theorem jsGetPropD_objSpread (v : JsVal) (k : String) :
    (objGet (objSpread v) k).getD .jsUndefined = jsGetPropD v k := by
  cases v <;> rfl

theorem mapE_ok_iff {f : JsVal → Except JsErr JsVal}
    (hf : ∀ d : JsVal, d ≠ .null → d ≠ .jsUndefined → ∃ y, f d = .ok y)
    (hnull : f .null = .error .typeError)
    (hjsUndefined : f .jsUndefined = .error .typeError) (xs : List JsVal) :
    (∃ l, mapE f xs = .ok l) ↔ ∀ d ∈ xs, d ≠ .null ∧ d ≠ .jsUndefined := by
  constructor
  · rintro ⟨l, hl⟩ d hd
    constructor
    · intro he; subst he; exact mapE_error_of_elem hd hnull l hl
    · intro he; subst he; exact mapE_error_of_elem hd hjsUndefined l hl
  · intro h
    exact mapE_ok_of_elems (fun d hd => hf d (h d hd).1 (h d hd).2)

theorem buildMergedSeries_ok_elim {H : List JsVal} {F : JsVal}
    {m : List JsVal} (h : buildMergedSeries H F = .ok m) :
    ∃ hs ys fs, mapE mergedHistPoint H = .ok hs ∧ jsOr F (.arr []) = .arr ys ∧
      mapE forecastRecord ys = .ok fs ∧ m = hs ++ fs := by
  unfold buildMergedSeries forecastSeriesE jsArrayMapE at h
  simp only [bind, Except.bind] at h
  split at h
  · cases h
  · split at h
    · cases h
    · rename_i x1 v1 heq1 x2 v2 heq2
      injection h with h₂
      split at heq2
      · rename_i ys hor
        exact ⟨v1, ys, v2, heq1, hor, heq2, h₂.symm⟩
      · cases heq2

theorem transformMetrics_obj_eq (fs : List (String × JsVal))
    (h : jsTruthy (jsGetPropD (.obj fs) "error") = false) :
    transformMetrics (.obj fs) =
      .obj (objUpd (objUpd fs
        "regression" (transformedRegression (regressionOf (.obj fs))))
        "classification" (transformedClassification (classificationOf (.obj fs)))) := by
  simp only [transformMetrics, objSpread]
  rw [show jsTruthy (JsVal.obj fs) = true from rfl, h]
  simp

theorem jsArrayMapE_ok_iff {f : JsVal → Except JsErr JsVal}
    (hf : ∀ d : JsVal, d ≠ .null → d ≠ .jsUndefined → ∃ y, f d = .ok y)
    (hnull : f .null = .error .typeError)
    (hjsUndefined : f .jsUndefined = .error .typeError) (j : JsVal) :
    (∃ l, jsArrayMapE f j = .ok l) ↔
      (jsTruthy j = false ∨
        ∃ xs, j = .arr xs ∧ ∀ d ∈ xs, d ≠ .null ∧ d ≠ .jsUndefined) := by
  by_cases ht : jsTruthy j = true
  · cases j with
    | arr xs =>
      rw [show jsArrayMapE f (.arr xs) = mapE f xs from rfl,
        mapE_ok_iff hf hnull hjsUndefined]
      simp [jsTruthy]
    | null => simp [jsTruthy] at ht
    | jsUndefined => simp [jsTruthy] at ht
    | bool b => simp [jsArrayMapE, jsOr, ht]
    | num x => simp [jsArrayMapE, jsOr, ht]
    | str s => simp [jsArrayMapE, jsOr, ht]
    | obj fs => simp [jsArrayMapE, jsOr, ht]
  · simp only [Bool.not_eq_true] at ht
    simp [jsArrayMapE, jsOr, ht, mapE]

/-! ## The claims -/

/-- C1, counterexample: the payload `5` is JSON-parseable, yet the
historical conversion map `(historicalData || []).map(...)` throws a
`TypeError` on it (a truthy non-array value has no `.map` method), so the
transformation layer is not total on all JSON-parseable inputs. -/
theorem spec_C1_cex :
    convertedHistoricalE (.num (.fin 5)) = .error .typeError := by rfl

/-- C1, amended: `transformMetrics` completes without throwing on every
input, and the historical conversion map and the merged-series
construction complete without throwing precisely when the payload is
falsy or an array with no `null`/`undefined` elements (the committed
historical list is element-wise throw-free, hence the hypothesis on `H`
in the merged-series part). -/
theorem spec_C1 :
    (∀ m : JsVal, transformMetricsE m = .ok (transformMetrics m)) ∧
    (∀ j : JsVal, (∃ l, convertedHistoricalE j = .ok l) ↔
      (jsTruthy j = false ∨
        ∃ xs, j = .arr xs ∧ ∀ d ∈ xs, d ≠ .null ∧ d ≠ .jsUndefined)) ∧
    (∀ (H : List JsVal) (j : JsVal), (∀ d ∈ H, d ≠ .null ∧ d ≠ .jsUndefined) →
      ((∃ l, buildMergedSeries H j = .ok l) ↔
        (jsTruthy j = false ∨
          ∃ xs, j = .arr xs ∧ ∀ d ∈ xs, d ≠ .null ∧ d ≠ .jsUndefined))) := by
  refine ⟨transformMetricsE_eq, ?_, ?_⟩
  · intro j
    exact jsArrayMapE_ok_iff
      (fun d h₁ h₂ => ⟨_, convertHistRecord_eq h₁ h₂⟩) rfl rfl j
  · intro H j hH
    constructor
    · rintro ⟨l, hl⟩
      obtain ⟨hs, ys, fs, hhs, hor, hfs, rfl⟩ := buildMergedSeries_ok_elim hl
      have hfok : ∃ l₂, jsArrayMapE forecastRecord j = .ok l₂ :=
        ⟨fs, by simp [jsArrayMapE, hor, hfs]⟩
      exact (jsArrayMapE_ok_iff
        (fun d h₁ h₂ => ⟨_, forecastRecord_eq h₁ h₂⟩) rfl rfl j).mp hfok
    · intro hr
      obtain ⟨hs, hhs⟩ := mapE_ok_of_elems
        (fun d hd => ⟨_, mergedHistPoint_eq (hH d hd).1 (hH d hd).2⟩)
      obtain ⟨fs, hfs⟩ := (jsArrayMapE_ok_iff
        (fun d h₁ h₂ => ⟨_, forecastRecord_eq h₁ h₂⟩) rfl rfl j).mpr hr
      exact ⟨hs ++ fs, by
        simp [buildMergedSeries, forecastSeriesE, bind, Except.bind, hhs, hfs]⟩

/-- C1, witness for the amended theorem at a concrete input: the empty
historical list and a `null` forecast payload. -/
theorem spec_C1_witness :
    (∀ d ∈ ([] : List JsVal), d ≠ JsVal.null ∧ d ≠ JsVal.jsUndefined) ∧
    ((∃ l, buildMergedSeries [] .null = .ok l) ↔
      (jsTruthy .null = false ∨
        ∃ xs, JsVal.null = .arr xs ∧ ∀ d ∈ xs, d ≠ .null ∧ d ≠ .jsUndefined)) :=
  ⟨by simp, spec_C1.2.2 [] .null (by simp)⟩

/-- C4: `transformMetrics` returns `null` — as a value, not an exception
— when its input is absent (`null`) or carries an error marker
(`{error: "x"}`). -/
theorem spec_C4 :
    transformMetricsE .null = .ok .null ∧
    transformMetricsE (.obj [("error", .str "x")]) = .ok .null :=
  ⟨rfl, rfl⟩

/-- C8: the absorbing-empty law: merging an empty historical list yields
exactly the forecast projection, and an empty forecast payload yields
exactly the historical projection; neither empty input is an error by
itself. -/
theorem spec_C8 :
    (∀ F : List JsVal,
      buildMergedSeries [] (.arr F) = mapE forecastRecord F) ∧
    (∀ H : List JsVal,
      buildMergedSeries H (.arr []) = mapE mergedHistPoint H) := by
  constructor
  · intro F
    simp only [buildMergedSeries, forecastSeriesE, jsArrayMapE,
      bind, Except.bind, jsOr, jsTruthy]
    cases hF : mapE forecastRecord F <;> simp [hF, mapE]
  · intro H
    simp only [buildMergedSeries, forecastSeriesE, jsArrayMapE,
      bind, Except.bind, jsOr, jsTruthy]
    cases hH : mapE mergedHistPoint H <;> simp [hH, mapE]

/-- C10: only a truthy error marker counts as an error: the result of
`transformMetrics` is `null` exactly when the input is falsy or its
`error` field is truthy; in particular an object whose `error` field is
the empty string produces a normalized metrics object, not `null`. -/
theorem spec_C10 :
    (∀ m : JsVal, transformMetricsE m = .ok .null ↔
      (jsTruthy m = false ∨ jsTruthy (jsGetPropD m "error") = true)) ∧
    (∃ fs, transformMetricsE (.obj [("error", .str "")]) = .ok (.obj fs)) := by
  constructor
  · intro m
    rw [transformMetricsE_eq]
    unfold transformMetrics
    by_cases h₁ : jsTruthy m = false
    · simp [h₁]
    · by_cases h₂ : jsTruthy (jsGetPropD m "error") = true
      · simp [h₁, h₂]
      · simp [h₁, h₂]
  · exact ⟨_, rfl⟩

/-- C2: the merged series built from input lists `H` and `F` has length
`|H| + |F|` and consists of the pointwise H-projection in its original
order followed by the pointwise F-projection in its original order — no
deduplication, sorting, or interpolation (the result is exactly the
concatenation of the two projections, whatever the date values are). -/
theorem spec_C2 (H F m : List JsVal)
    (h : buildMergedSeries H (.arr F) = .ok m) :
    ∃ hs fs, mapE mergedHistPoint H = .ok hs ∧
      mapE forecastRecord F = .ok fs ∧ m = hs ++ fs ∧
      hs.length = H.length ∧ fs.length = F.length ∧
      m.length = H.length + F.length ∧
      (∀ (i : ℕ) (d : JsVal), H[i]? = some d →
        ∃ y, mergedHistPoint d = .ok y ∧ m[i]? = some y) ∧
      (∀ (i : ℕ) (d : JsVal), F[i]? = some d →
        ∃ y, forecastRecord d = .ok y ∧ m[H.length + i]? = some y) := by
  obtain ⟨hs, ys, fs, hhs, hor, hfs, rfl⟩ := buildMergedSeries_ok_elim h
  have h₂ : JsVal.arr F = JsVal.arr ys := hor
  injection h₂ with hy
  subst hy
  have hlh := mapE_ok_length hhs
  have hlf := mapE_ok_length hfs
  refine ⟨hs, fs, hhs, hfs, rfl, hlh, hlf, by simp [hlh, hlf], ?_, ?_⟩
  · intro i d hd
    obtain ⟨y, hy, hyi⟩ := mapE_ok_get hhs i d hd
    refine ⟨y, hy, ?_⟩
    rw [List.getElem?_append_left (getElem?_some_lt hyi)]
    exact hyi
  · intro i d hd
    obtain ⟨y, hy, hyi⟩ := mapE_ok_get hfs i d hd
    refine ⟨y, hy, ?_⟩
    rw [← hlh, List.getElem?_append_right (Nat.le_add_right _ _)]
    simpa using hyi

/-- C2, witness: one historical record and one forecast record merge to
the two projected points, so the merged length is 1 + 1. -/
theorem spec_C2_witness :
    buildMergedSeries [sampleHist1] (.arr [sampleForecast1]) =
      .ok [mergedHistTotal sampleHist1, forecastTotal sampleForecast1] ∧
    ([mergedHistTotal sampleHist1, forecastTotal sampleForecast1] :
      List JsVal).length = 1 + 1 := by
  refine ⟨rfl, ?_⟩
  obtain ⟨hs, fs, h₁, h₂, h₃, h₄, h₅, h₆, h₇, h₈⟩ :=
    spec_C2 [sampleHist1] [sampleForecast1]
      [mergedHistTotal sampleHist1, forecastTotal sampleForecast1] rfl
  exact h₆

/-- C9: every merged point carries exactly one of the two value fields,
according to its source: the points projected from the historical list —
the first `|H|` positions of the merged series — carry a `price` key and
no `prediction` key, and the points projected from the forecast list —
the remaining positions — carry a `prediction` key and no `price` key. -/
theorem spec_C9 (H : List JsVal) (F : JsVal) (m : List JsVal)
    (h : buildMergedSeries H F = .ok m) :
    (∀ (i : ℕ) (pt : JsVal), i < H.length → m[i]? = some pt →
      hasKey pt "price" = true ∧ hasKey pt "prediction" = false) ∧
    (∀ (i : ℕ) (pt : JsVal), H.length ≤ i → m[i]? = some pt →
      hasKey pt "prediction" = true ∧ hasKey pt "price" = false) := by
  obtain ⟨hs, ys, fs, hhs, hor, hfs, rfl⟩ := buildMergedSeries_ok_elim h
  have hlh := mapE_ok_length hhs
  constructor
  · intro i pt hi hpt
    rw [List.getElem?_append_left (show i < hs.length by omega)] at hpt
    obtain ⟨d, hd, hfd⟩ := mapE_ok_mem hhs pt (List.getElem?_mem hpt)
    cases d <;>
      simp only [mergedHistPoint, jsGetProp, bind, Except.bind,
        Except.ok.injEq, reduceCtorEq] at hfd <;>
      (subst hfd; exact ⟨rfl, rfl⟩)
  · intro i pt hi hpt
    rw [List.getElem?_append_right (show hs.length ≤ i by omega)] at hpt
    obtain ⟨d, hd, hfd⟩ := mapE_ok_mem hfs pt (List.getElem?_mem hpt)
    cases d <;>
      simp only [forecastRecord, jsGetProp, bind, Except.bind,
        Except.ok.injEq, reduceCtorEq] at hfd <;>
      (subst hfd; exact ⟨rfl, rfl⟩)

/-- C9, witness: merging one historical and one forecast record, the
point at position 0 (historical-sourced) carries `price` only and the
point at position 1 (forecast-sourced) carries `prediction` only. -/
theorem spec_C9_witness :
    (0 < ([sampleHist1] : List JsVal).length) ∧
    (hasKey (mergedHistTotal sampleHist1) "price" = true ∧
     hasKey (mergedHistTotal sampleHist1) "prediction" = false) ∧
    (hasKey (forecastTotal sampleForecast1) "prediction" = true ∧
     hasKey (forecastTotal sampleForecast1) "price" = false) := by
  refine ⟨by decide, ?_, ?_⟩
  · exact (spec_C9 [sampleHist1] (.arr [sampleForecast1])
      [mergedHistTotal sampleHist1, forecastTotal sampleForecast1] rfl).1
      0 (mergedHistTotal sampleHist1) (by decide) rfl
  · exact (spec_C9 [sampleHist1] (.arr [sampleForecast1])
      [mergedHistTotal sampleHist1, forecastTotal sampleForecast1] rfl).2
      1 (forecastTotal sampleForecast1) (by decide) rfl

/-- C3: the normalized historical output is the pointwise image of the
input (same length, same order); each output price is the input price
(0 when the field is missing) multiplied by the fixed rate 83 and
rounded to 2 decimal places, and every other field of the record is
passed through unchanged. -/
theorem spec_C3 :
    (∀ xs : List JsVal, (∀ d ∈ xs, d ≠ .null ∧ d ≠ .jsUndefined) →
      convertedHistoricalE (.arr xs) = .ok (xs.map convertHistTotal) ∧
      (xs.map convertHistTotal).length = xs.length) ∧
    (∀ (fs : List (String × JsVal)) (q : ℚ),
      objGet fs "price" = some (.num (.fin q)) →
      jsGetPropD (convertHistTotal (.obj fs)) "price" =
        .num (.fin (round2q (q * 83)))) ∧
    (∀ fs : List (String × JsVal), objGet fs "price" = none →
      jsGetPropD (convertHistTotal (.obj fs)) "price" = .num (.fin 0)) ∧
    (∀ (fs : List (String × JsVal)) (k : String), k ≠ "price" →
      jsGetPropD (convertHistTotal (.obj fs)) k = jsGetPropD (.obj fs) k) := by
  refine ⟨?_, ?_, ?_, ?_⟩
  · intro xs h
    refine ⟨?_, by simp⟩
    rw [show convertedHistoricalE (.arr xs) = mapE convertHistRecord xs from rfl]
    exact mapE_ok_of_total (fun d hd => convertHistRecord_eq (h d hd).1 (h d hd).2)
  · intro fs q h
    simp [convertHistTotal, jsGetPropD, objSpread, h, objGet_objUpd_self,
      convertToInr, jsNullish, jsToNumber, jnMul, jnRound2, USD_TO_INR, jsZero]
  · intro fs h
    norm_num [convertHistTotal, jsGetPropD, objSpread, h, objGet_objUpd_self,
      convertToInr, jsNullish, jsToNumber, jnMul, jnRound2, jsZero, round2q]
  · intro fs k hk
    simp [convertHistTotal, jsGetPropD, objSpread, objGet_objUpd_of_ne _ _ hk]

/-- C3, witness: a record with price 1.2045 converts to 99.97 (spec §8
scenario 8), the list output being the pointwise image. -/
theorem spec_C3_witness :
    (∀ d ∈ [sampleRaw1], d ≠ JsVal.null ∧ d ≠ JsVal.jsUndefined) ∧
    convertedHistoricalE (.arr [sampleRaw1]) =
      .ok ([sampleRaw1].map convertHistTotal) ∧
    jsGetPropD (convertHistTotal sampleRaw1) "price" =
      .num (.fin (9997/100)) := by
  refine ⟨by simp [sampleRaw1], (spec_C3.1 [sampleRaw1] (by simp [sampleRaw1])).1, ?_⟩
  have h := spec_C3.2.1
    [("date", .str "2024-01-02"), ("price", .num (.fin (12045/10000))),
     ("volume", .num (.fin 158))] (12045/10000) rfl
  exact h.trans (by norm_num [round2q])

/-- C5: on a present, non-error object input, `transformMetrics`
converts exactly `regression.mae` and `regression.rmse` by ×83 and
2-decimal rounding, numerically coerces the other listed leaf fields
with default 0, defaults an absent/falsy confusion matrix, and passes
every other field (at the top level and inside both sub-objects)
through unchanged. -/
theorem spec_C5 (fs : List (String × JsVal))
    (h : jsTruthy (jsGetPropD (.obj fs) "error") = false) :
    jsGetPropD (jsGetPropD (transformMetrics (.obj fs)) "regression") "mae" =
      .num (jnRound2 (jnMul (jsToNumber (jsNullish
        (jsGetPropD (regressionOf (.obj fs)) "mae") jsZero)) (.fin 83))) ∧
    jsGetPropD (jsGetPropD (transformMetrics (.obj fs)) "regression") "rmse" =
      .num (jnRound2 (jnMul (jsToNumber (jsNullish
        (jsGetPropD (regressionOf (.obj fs)) "rmse") jsZero)) (.fin 83))) ∧
    jsGetPropD (jsGetPropD (transformMetrics (.obj fs)) "regression") "mape" =
      .num (jsToNumber (jsNullish (jsGetPropD (regressionOf (.obj fs)) "mape") jsZero)) ∧
    jsGetPropD (jsGetPropD (transformMetrics (.obj fs)) "regression") "r2" =
      .num (jsToNumber (jsNullish (jsGetPropD (regressionOf (.obj fs)) "r2") jsZero)) ∧
    jsGetPropD (jsGetPropD (transformMetrics (.obj fs)) "classification") "accuracy" =
      .num (jsToNumber (jsNullish (jsGetPropD (classificationOf (.obj fs)) "accuracy") jsZero)) ∧
    jsGetPropD (jsGetPropD (transformMetrics (.obj fs)) "classification") "precision" =
      .num (jsToNumber (jsNullish (jsGetPropD (classificationOf (.obj fs)) "precision") jsZero)) ∧
    jsGetPropD (jsGetPropD (transformMetrics (.obj fs)) "classification") "recall" =
      .num (jsToNumber (jsNullish (jsGetPropD (classificationOf (.obj fs)) "recall") jsZero)) ∧
    jsGetPropD (jsGetPropD (transformMetrics (.obj fs)) "classification") "f1" =
      .num (jsToNumber (jsNullish (jsGetPropD (classificationOf (.obj fs)) "f1") jsZero)) ∧
    jsGetPropD (jsGetPropD (transformMetrics (.obj fs)) "classification") "confusion_matrix" =
      jsOr (jsGetPropD (classificationOf (.obj fs)) "confusion_matrix") emptyConfusionMatrix ∧
    (∀ k, k ≠ "regression" → k ≠ "classification" →
      jsGetPropD (transformMetrics (.obj fs)) k = jsGetPropD (.obj fs) k) ∧
    (∀ k, k ≠ "mae" → k ≠ "rmse" → k ≠ "mape" → k ≠ "r2" →
      jsGetPropD (jsGetPropD (transformMetrics (.obj fs)) "regression") k =
        jsGetPropD (regressionOf (.obj fs)) k) ∧
    (∀ k, k ≠ "accuracy" → k ≠ "precision" → k ≠ "recall" → k ≠ "f1" →
      k ≠ "confusion_matrix" →
      jsGetPropD (jsGetPropD (transformMetrics (.obj fs)) "classification") k =
        jsGetPropD (classificationOf (.obj fs)) k) := by
  rw [transformMetrics_obj_eq fs h]
  refine ⟨?_, ?_, ?_, ?_, ?_, ?_, ?_, ?_, ?_, ?_, ?_, ?_⟩
  · simp [jsGetPropD, objGet_objUpd_of_ne, objGet_objUpd_self,
      transformedRegression, transformedClassification,
      convertToInr, jsNullish_jsNullish, USD_TO_INR, jsGetPropD_objSpread]
  · simp [jsGetPropD, objGet_objUpd_of_ne, objGet_objUpd_self,
      transformedRegression, transformedClassification,
      convertToInr, jsNullish_jsNullish, USD_TO_INR, jsGetPropD_objSpread]
  · simp [jsGetPropD, objGet_objUpd_of_ne, objGet_objUpd_self,
      transformedRegression, transformedClassification,
      convertToInr, jsNullish_jsNullish, USD_TO_INR, jsGetPropD_objSpread]
  · simp [jsGetPropD, objGet_objUpd_of_ne, objGet_objUpd_self,
      transformedRegression, transformedClassification,
      convertToInr, jsNullish_jsNullish, USD_TO_INR, jsGetPropD_objSpread]
  · simp [jsGetPropD, objGet_objUpd_of_ne, objGet_objUpd_self,
      transformedRegression, transformedClassification,
      convertToInr, jsNullish_jsNullish, USD_TO_INR, jsGetPropD_objSpread]
  · simp [jsGetPropD, objGet_objUpd_of_ne, objGet_objUpd_self,
      transformedRegression, transformedClassification,
      convertToInr, jsNullish_jsNullish, USD_TO_INR, jsGetPropD_objSpread]
  · simp [jsGetPropD, objGet_objUpd_of_ne, objGet_objUpd_self,
      transformedRegression, transformedClassification,
      convertToInr, jsNullish_jsNullish, USD_TO_INR, jsGetPropD_objSpread]
  · simp [jsGetPropD, objGet_objUpd_of_ne, objGet_objUpd_self,
      transformedRegression, transformedClassification,
      convertToInr, jsNullish_jsNullish, USD_TO_INR, jsGetPropD_objSpread]
  · simp [jsGetPropD, objGet_objUpd_of_ne, objGet_objUpd_self,
      transformedRegression, transformedClassification,
      convertToInr, jsNullish_jsNullish, USD_TO_INR, jsGetPropD_objSpread]
  · intro k hk₁ hk₂
    simp [jsGetPropD, objGet_objUpd_of_ne, objGet_objUpd_self,
      jsGetPropD_objSpread, hk₁, hk₂]
  · intro k hk₁ hk₂ hk₃ hk₄
    simp [jsGetPropD, objGet_objUpd_of_ne, objGet_objUpd_self,
      transformedRegression, transformedClassification,
      jsGetPropD_objSpread, hk₁, hk₂, hk₃, hk₄]
  · intro k hk₁ hk₂ hk₃ hk₄ hk₅
    simp [jsGetPropD, objGet_objUpd_of_ne, objGet_objUpd_self,
      transformedRegression, transformedClassification,
      jsGetPropD_objSpread, hk₁, hk₂, hk₃, hk₄, hk₅]

/-- C5, witness: the scenario-9 metrics object yields `mae = 83`,
`rmse = 166` after normalization. -/
theorem spec_C5_witness :
    jsTruthy (jsGetPropD sampleMetrics "error") = false ∧
    jsGetPropD (jsGetPropD (transformMetrics sampleMetrics) "regression") "mae" =
      .num (.fin 83) ∧
    jsGetPropD (jsGetPropD (transformMetrics sampleMetrics) "regression") "rmse" =
      .num (.fin 166) := by
  have h := spec_C5
    [("regression", .obj [("mae", .num (.fin 1)), ("rmse", .num (.fin 2)),
        ("mape", .num (.fin 3)), ("r2", .num (.fin (9/10)))]),
     ("classification", .obj [("accuracy", .num (.fin (8/10))),
        ("precision", .num (.fin (7/10))), ("recall", .num (.fin (6/10))),
        ("f1", .num (.fin (65/100))),
        ("confusion_matrix", .obj [("tn", .num (.fin 1)), ("fp", .num (.fin 2)),
          ("fn", .num (.fin 3)), ("tp", .num (.fin 4))])])] rfl
  refine ⟨rfl, ?_, ?_⟩
  · refine h.1.trans ?_
    simp [regressionOf, jsOr, jsTruthy, jsGetPropD, objGet, jsNullish,
      jsToNumber, jnMul, jnRound2, jsZero]
    norm_num [round2q]
  · refine h.2.1.trans ?_
    simp [regressionOf, jsOr, jsTruthy, jsGetPropD, objGet, jsNullish,
      jsToNumber, jnMul, jnRound2, jsZero]
    norm_num [round2q]

/-- C6: `getPriceChange` yields `{change: 0, percentage: 0}` on series
shorter than 2; otherwise change is last price minus second-to-last
price and percentage is that change divided by the second-to-last price
times 100, with no zero guard: a zero second-to-last price makes the
percentage `NaN` or a signed infinity rather than an error. -/
theorem spec_C6 :
    (∀ s : List JsVal, s.length < 2 →
      getPriceChange s = .ok (.fin 0, .fin 0)) ∧
    (∀ (s : List JsVal) (a b ca cb : JsVal), 2 ≤ s.length →
      s[s.length - 1]? = some a → s[s.length - 2]? = some b →
      jsGetProp a "price" = .ok ca → jsGetProp b "price" = .ok cb →
      getPriceChange s =
        .ok (jnSub (jsToNumber ca) (jsToNumber cb),
          jnMul (jnDiv (jnSub (jsToNumber ca) (jsToNumber cb))
            (jsToNumber cb)) (.fin 100))) ∧
    (∀ ca cb : JsVal, jsToNumber cb = .fin 0 →
      jnMul (jnDiv (jnSub (jsToNumber ca) (jsToNumber cb))
          (jsToNumber cb)) (.fin 100) = .nan ∨
      ∃ sgn, jnMul (jnDiv (jnSub (jsToNumber ca) (jsToNumber cb))
          (jsToNumber cb)) (.fin 100) = .inf sgn) := by
  refine ⟨?_, ?_, ?_⟩
  · intro s hs
    simp [getPriceChange, hs]
  · intro s a b ca cb hlen h₁ h₂ hca hcb
    unfold getPriceChange
    rw [if_neg (by omega), h₁, h₂]
    simp [hca, hcb, bind, Except.bind]
  · intro ca cb hcb
    rw [hcb]
    cases hca : jsToNumber ca with
    | nan => left; simp [jnSub, jnDiv, jnMul]
    | inf b => right; simp [jnSub, jnDiv, jnMul]
    | fin q =>
      by_cases hq : q = 0
      · left; norm_num [jnSub, jnDiv, jnMul, hq]
      · right; norm_num [jnSub, jnDiv, jnMul, hq]

/-- C6, witness: the scenario-7 series (prices 100 then 110) yields
change 10 and percentage 10. -/
theorem spec_C6_witness :
    (2 ≤ ([sampleHist1, sampleHist2] : List JsVal).length) ∧
    getPriceChange [sampleHist1, sampleHist2] = .ok (.fin 10, .fin 10) := by
  refine ⟨by decide, ?_⟩
  have h := spec_C6.2.1 [sampleHist1, sampleHist2] sampleHist2 sampleHist1
    (.num (.fin 110)) (.num (.fin 100)) (by decide) rfl rfl rfl rfl
  exact h.trans (by norm_num [jsToNumber, jnSub, jnDiv, jnMul])

/-- C7, counterexample: a metrics response with a non-OK status but JSON
body `{error: "boom"}` does not reset the committed state: the
historical series stays rendered (the code never consults the HTTP
status), contradicting the all-or-nothing reset for non-OK statuses. -/
theorem spec_C7_cex :
    (handleStockSelect
      (.respond true (some (.arr [.obj [("date", .str "d1"),
        ("price", .num (.fin 1)), ("volume", .num (.fin 10))]])))
      (.respond true (some (.arr [])))
      (.respond false (some (.obj [("error", .str "boom")])))).stockData ≠
      [] := by
  have hval : (handleStockSelect
      (.respond true (some (.arr [.obj [("date", .str "d1"),
        ("price", .num (.fin 1)), ("volume", .num (.fin 10))]])))
      (.respond true (some (.arr [])))
      (.respond false (some (.obj [("error", .str "boom")])))).stockData =
      [convertHistTotal (.obj [("date", .str "d1"),
        ("price", .num (.fin 1)), ("volume", .num (.fin 10))])] := rfl
  rw [hval]
  simp

/-- C7, amended: the committed state is fully reset (empty historical
and merged series, null metrics) whenever any of the three fetch chains
rejects — a rejected request or a body that fails to parse as JSON — or
the `.then` transformation throws; a non-OK status alone, with a JSON
body, is processed like a success. -/
theorem spec_C7 (h p m : FetchResult)
    (hfail : settleJson h = none ∨ settleJson p = none ∨
      settleJson m = none ∨
      ∃ hj pj mj e, settleJson h = some hj ∧ settleJson p = some pj ∧
        settleJson m = some mj ∧ thenBody hj pj mj = .error e) :
    handleStockSelect h p m = resetState := by
  unfold handleStockSelect
  rcases hfail with hh | hp | hm | ⟨hj, pj, mj, e, hh, hp, hm, hthen⟩
  · rw [hh]
  · rw [hp]; cases settleJson h <;> rfl
  · rw [hm]; cases settleJson h <;> cases settleJson p <;> rfl
  · simp only [hh, hp, hm]
    rw [hthen]

/-- C7, witness for the amended theorem: a rejected historical fetch
resets the committed state. -/
theorem spec_C7_witness :
    settleJson .reject = none ∧
    handleStockSelect .reject (.respond true (some (.arr [])))
      (.respond true (some .null)) = resetState :=
  ⟨rfl, spec_C7 _ _ _ (Or.inl rfl)⟩

example : transformMetrics .null = .null := by rfl
example : transformMetrics (.obj [("error", .str "x")]) = .null := by rfl
example : convertedHistoricalE (.num (.fin 5)) = .error .typeError := by rfl
example : getPriceChange [] = .ok (.fin 0, .fin 0) := by rfl
